import Mathlib

/-!
# go-cli-template: the AI facade and the lazy client cell

A shallow embedding of `internal/ai/client.go`, `internal/context/context.go`, the
command handlers of `internal/cli/ai/ai.go`, command registration in
`internal/cli/root.go`, and `Formatter.Info` / `Formatter.Confirm` of
`internal/output/output.go`.

* Go's `(string, error)` results are `String × Option GoError` (`none` is the nil error).
* A Go call that may panic returns an `Outcome`.
* The backend SDK clients are external collaborators: each is represented by the one
  method the facade calls, as a state-passing function over an arbitrary backend
  state `σ` (the network, the remote service).
* The template selects one adapter variant per build (`values.aiProvider`); the variant
  is the constructor of `Adapter`.
-/

namespace GoCli

/-! ## Go runtime: errors, panics, `fmt` -/

/-- Go error values. `errorString` is what `errors.New` and a `fmt.Errorf` without a
wrapping verb build at run time, `wrapError` is what `fmt.Errorf` with the `%w` verb
builds, `foreign` is an error of a type defined by a backend SDK that wraps nothing,
`foreignWrap` is an error of such a type that has an `Unwrap` method, and `sentinel` is
a package-level error variable (such as `context.Canceled`): Go compares errors by
identity, and the name of a `sentinel` is its identity, so no value built at run time
equals a `sentinel`. -/
inductive GoError where
  | errorString (s : String)
  | wrapError (msg : String) (err : GoError)
  | foreign (typ : String) (msg : String)
  | foreignWrap (typ : String) (msg : String) (err : GoError)
  | sentinel (name : String) (msg : String)
  deriving DecidableEq, Repr

/-- The `Error()` method: the message of an error value. -/
def GoError.Error : GoError → String
  | .errorString s => s
  | .wrapError msg _ => msg
  | .foreign _ msg => msg
  | .foreignWrap _ msg _ => msg
  | .sentinel _ msg => msg

/-- The `Unwrap()` method (`errors.Unwrap`): the wrapped error, if any. -/
def GoError.Unwrap : GoError → Option GoError
  | .wrapError _ err => some err
  | .foreignWrap _ _ err => some err
  | _ => none

/-- The result of a Go call that either returns a value or panics with a value. -/
inductive Outcome (α : Type) where
  | ret (a : α)
  | panic (v : GoError)
  deriving DecidableEq, Repr

/-- The text `fmt` appends for operands that no verb consumed. -/
def fmtExtra (args : List String) : List Char :=
  "%!(EXTRA ".data ++ (", ".intercalate (args.map (fun a => "string=" ++ a))).data ++ [')']

/-- The formatting loop of `fmt.Sprintf` over string operands, for the verbs this
program uses (`%s`, `%w`, and `%v`, which print a string operand verbatim) and `%%`.
A verb without an operand prints `%!v(MISSING)`, any other verb prints the
bad-verb form, a trailing `%` prints `%!(NOVERB)`. -/
def sprintfAux : List Char → List String → List Char
  | [], [] => []
  | [], a :: as => fmtExtra (a :: as)
  | [c], args =>
    if c = '%' then "%!(NOVERB)".data ++ sprintfAux [] args else c :: sprintfAux [] args
  | c :: v :: rest, args =>
    if c = '%' then
      if v = '%' then '%' :: sprintfAux rest args
      else
        match args with
        | [] => ['%', '!', v] ++ "(MISSING)".data ++ sprintfAux rest []
        | a :: as =>
          (if v = 's' ∨ v = 'v' ∨ v = 'w' then a.data
           else ['%', '!', v] ++ "(string=".data ++ a.data ++ [')']) ++ sprintfAux rest as
    else c :: sprintfAux (v :: rest) args

/-- Go `fmt.Sprintf` restricted to string operands. -/
def Sprintf (format : String) (args : List String) : String :=
  String.mk (sprintfAux format.data args)

/-- The operand of the first `%w` verb of a format, if there is one. -/
def wrapOperand : List Char → List GoError → Option GoError
  | [], _ => none
  | [_], _ => none
  | c :: v :: rest, args =>
    if c = '%' then
      if v = '%' then wrapOperand rest args
      else
        match args with
        | [] => none
        | a :: as => if v = 'w' then some a else wrapOperand rest as
    else wrapOperand (v :: rest) args

/-- Go `fmt.Errorf` over error operands: the message is the `Sprintf` of the operands'
messages; with a `%w` verb the result wraps that verb's operand, otherwise it is a
plain error string. -/
def Errorf (format : String) (args : List GoError) : GoError :=
  let msg := Sprintf format (args.map GoError.Error)
  match wrapOperand format.data args with
  | some err => .wrapError msg err
  | none => .errorString msg

/-! ## Collaborator types -/

/-- The execution scope (`context.Context`) handed to a backend call. -/
structure Scope where
  cancelled : Bool
  deriving DecidableEq, Repr

/-- The type `config.AIConfig`: the union of the fields of the four template variants. -/
structure AIConfig where
  Provider : String
  Region : String
  APIKey : String
  Host : String
  Model : String
  deriving DecidableEq, Repr

/-- The four adapter variants of `values.aiProvider`; the value "none" of the template
is `Option.none` of `Option Provider`. -/
inductive Provider where
  | bedrock
  | openai
  | anthropic
  | ollama
  deriving DecidableEq, Repr

namespace bedrock

/-- The union `types.ContentBlock`: the text member, or any other member. -/
inductive ContentBlock where
  | text (Value : String)
  | other (member : String)
  deriving DecidableEq, Repr

/-- The enumeration `types.ConversationRole`. -/
inductive ConversationRole where
  | user
  | assistant
  deriving DecidableEq, Repr

/-- The type `types.Message`. -/
structure Message where
  Role : ConversationRole
  Content : List ContentBlock
  deriving DecidableEq, Repr

/-- The fields of `bedrockruntime.ConverseInput` that the facade sets. -/
structure ConverseInput where
  ModelId : Option String
  Messages : List Message
  deriving DecidableEq, Repr

/-- The union `types.ConverseOutput`: the message member, another member, or nil. -/
inductive ConverseOutputUnion where
  | message (Value : Message)
  | unknown (member : String)
  | nil
  deriving DecidableEq, Repr

/-- The type `bedrockruntime.ConverseOutput`. -/
structure ConverseOutput where
  Output : ConverseOutputUnion
  deriving DecidableEq, Repr

end bedrock

namespace openai

/-- The type `openai.ChatCompletionMessage`. -/
structure ChatCompletionMessage where
  Role : String
  Content : String
  deriving DecidableEq, Repr

/-- The constant `openai.ChatMessageRoleUser`. -/
def ChatMessageRoleUser : String := "user"

/-- The fields of `openai.ChatCompletionRequest` that the facade sets. -/
structure ChatCompletionRequest where
  Model : String
  Messages : List ChatCompletionMessage
  deriving DecidableEq, Repr

/-- The type `openai.ChatCompletionChoice`. -/
structure ChatCompletionChoice where
  Message : ChatCompletionMessage
  deriving DecidableEq, Repr

/-- The type `openai.ChatCompletionResponse`. -/
structure ChatCompletionResponse where
  Choices : List ChatCompletionChoice
  deriving DecidableEq, Repr

end openai

namespace anthropic

/-- What `ContentBlock.AsUnion()` yields: a `TextBlock` or some other block. -/
inductive ContentBlock where
  | text (Text : String)
  | other (type : String)
  deriving DecidableEq, Repr

/-- A message parameter as built by `anthropic.NewUserMessage(anthropic.NewTextBlock(p))`:
a role and the texts of its text blocks. -/
structure MessageParam where
  Role : String
  Content : List String
  deriving DecidableEq, Repr

/-- The helper `anthropic.NewUserMessage` over text blocks. -/
def NewUserMessage (blocks : List String) : MessageParam :=
  { Role := "user", Content := blocks }

/-- The fields of `anthropic.MessageNewParams` that the facade sets. -/
structure MessageNewParams where
  Model : String
  Messages : List MessageParam
  MaxTokens : Int
  deriving DecidableEq, Repr

/-- The type `anthropic.Message` (the response). -/
structure Message where
  Content : List ContentBlock
  deriving DecidableEq, Repr

end anthropic

namespace ollama

/-- The fields of `api.GenerateRequest` that the facade sets. -/
structure GenerateRequest where
  Model : String
  Prompt : String
  deriving DecidableEq, Repr

/-- The type `api.GenerateResponse`: one streamed fragment. -/
structure GenerateResponse where
  Response : String
  deriving DecidableEq, Repr

/-- The streaming loop of `api.Client.Generate`: the callback is invoked once per
received fragment, in order, threading the variables it captures (`acc`); the
first error it returns ends the call, otherwise the call ends with the
transport's own error (or nil). -/
def stream {β : Type} (fn : GenerateResponse → β → β × Option GoError) :
    List GenerateResponse → Option GoError → β → β × Option GoError
  | [], final, acc => (acc, final)
  | r :: rs, final, acc =>
    match fn r acc with
    | (acc', some e) => (acc', some e)
    | (acc', none) => stream fn rs final acc'

end ollama

/-! ## Package `ai`: the facade (`internal/ai/client.go`) -/

/-- The bound backend client of a facade, one constructor per template variant. Each
SDK client is represented by the single method `Chat` calls on it, as a function of
the backend state `σ`. -/
inductive Adapter (σ : Type) where
  | bedrock (Converse : Scope → bedrock.ConverseInput → σ →
      Except GoError bedrock.ConverseOutput × σ)
  | openai (CreateChatCompletion : Scope → openai.ChatCompletionRequest → σ →
      Except GoError openai.ChatCompletionResponse × σ)
  | anthropic (MessagesNew : Scope → anthropic.MessageNewParams → σ →
      Except GoError anthropic.Message × σ)
  | ollama (Generate : Scope → ollama.GenerateRequest → σ →
      (List ollama.GenerateResponse × Option GoError) × σ)

/-- The variant a bound adapter belongs to. -/
def Adapter.provider {σ : Type} : Adapter σ → Provider
  | .bedrock _ => .bedrock
  | .openai _ => .openai
  | .anthropic _ => .anthropic
  | .ollama _ => .ollama

/-- The struct `ai.Client` of an enabled build: the configuration and the bound SDK
client. -/
structure Client (σ : Type) where
  cfg : AIConfig
  adapter : Adapter σ

/-- The panic of a failed single-value type assertion. -/
def typeAssertionPanic : GoError :=
  .foreign "runtime.TypeAssertionError" "interface conversion"

/-- The local `input` of the bedrock variant of `Chat`. -/
def Client.converseInput {σ : Type} (c : Client σ) (prompt : String) : bedrock.ConverseInput :=
  { ModelId := some c.cfg.Model,
    Messages := [{ Role := .user, Content := [.text prompt] }] }

/-- The request literal of the openai variant of `Chat`. -/
def Client.chatCompletionRequest {σ : Type} (c : Client σ) (prompt : String) :
    openai.ChatCompletionRequest :=
  { Model := c.cfg.Model,
    Messages := [{ Role := openai.ChatMessageRoleUser, Content := prompt }] }

/-- The request literal of the anthropic variant of `Chat`. -/
def Client.messageNewParams {σ : Type} (c : Client σ) (prompt : String) :
    anthropic.MessageNewParams :=
  { Model := c.cfg.Model,
    Messages := [anthropic.NewUserMessage [prompt]],
    MaxTokens := 1024 }

/-- The local `req` of the ollama variant of `Chat`. -/
def Client.generateRequest {σ : Type} (c : Client σ) (prompt : String) :
    ollama.GenerateRequest :=
  { Model := c.cfg.Model, Prompt := prompt }

/-- The method `Client.Chat`: sends a chat message and returns the response. -/
def Client.Chat {σ : Type} (c : Client σ) (ctx : Scope) (prompt : String) (w : σ) :
    Outcome (String × Option GoError) × σ :=
  match c.adapter with
  | .bedrock Converse =>
    let input := c.converseInput prompt
    match Converse ctx input w with
    | (.error err, w1) => (.ret ("", some (Errorf "bedrock converse failed: %w" [err])), w1)
    | (.ok output, w1) =>
      match output.Output with
      | .message Value =>
        if Value.Content.length > 0 then
          match Value.Content.head? with
          | some (.text text) => (.ret (text, none), w1)
          | _ => (.ret ("", some (Errorf "no response from model" [])), w1)
        else (.ret ("", some (Errorf "no response from model" [])), w1)
      | _ => (.panic typeAssertionPanic, w1)
  | .openai CreateChatCompletion =>
    match CreateChatCompletion ctx (c.chatCompletionRequest prompt) w with
    | (.error err, w1) => (.ret ("", some (Errorf "openai chat failed: %w" [err])), w1)
    | (.ok resp, w1) =>
      if resp.Choices.length > 0 then
        match resp.Choices.head? with
        | some choice => (.ret (choice.Message.Content, none), w1)
        | none => (.ret ("", some (Errorf "no response from model" [])), w1)
      else (.ret ("", some (Errorf "no response from model" [])), w1)
  | .anthropic MessagesNew =>
    match MessagesNew ctx (c.messageNewParams prompt) w with
    | (.error err, w1) => (.ret ("", some (Errorf "anthropic chat failed: %w" [err])), w1)
    | (.ok resp, w1) =>
      if resp.Content.length > 0 then
        match resp.Content.head? with
        | some (.text text) => (.ret (text, none), w1)
        | _ => (.ret ("", some (Errorf "no response from model" [])), w1)
      else (.ret ("", some (Errorf "no response from model" [])), w1)
  | .ollama Generate =>
    let req := c.generateRequest prompt
    match Generate ctx req w with
    | ((fragments, final), w1) =>
      match ollama.stream (fun resp response => (response ++ resp.Response, none))
          fragments final "" with
      | (_, some err) => (.ret ("", some (Errorf "ollama generate failed: %w" [err])), w1)
      | (response, none) => (.ret (response, none), w1)

/-- The method `Client.Analyze`: analyzes text and returns insights. -/
def Client.Analyze {σ : Type} (c : Client σ) (ctx : Scope) (text : String) (w : σ) :
    Outcome (String × Option GoError) × σ :=
  let prompt := Sprintf "Analyze the following text and provide insights:\n\n%s" [text]
  c.Chat ctx prompt w

/-- The method `Client.Summarize`: creates a summary of the given text. -/
def Client.Summarize {σ : Type} (c : Client σ) (ctx : Scope) (text : String) (w : σ) :
    Outcome (String × Option GoError) × σ :=
  let prompt := Sprintf "Summarize the following text concisely:\n\n%s" [text]
  c.Chat ctx prompt w

/-- A value of Go type `any`, as far as an options map holds one. -/
inductive AnyValue where
  | str (s : String)
  | int (i : Int)
  | bool (b : Bool)
  deriving DecidableEq, Repr

/-- The method `Client.Generate`: generates content based on a prompt. The options map
(`none` is the nil map) is accepted and not read. -/
def Client.Generate {σ : Type} (c : Client σ) (ctx : Scope) (prompt : String)
    (_options : Option (List (String × AnyValue))) (w : σ) :
    Outcome (String × Option GoError) × σ :=
  c.Chat ctx prompt w

/-- The backend call that `Chat` issues for `prompt` fails with the error `e`, leaving
the backend in state `w1`. For the ollama variant the fragments streamed before the
failure are arbitrary. -/
def Client.BackendFails {σ : Type} (c : Client σ) (ctx : Scope) (prompt : String) (w : σ)
    (e : GoError) (w1 : σ) : Prop :=
  match c.adapter with
  | .bedrock Converse => Converse ctx (c.converseInput prompt) w = (.error e, w1)
  | .openai CreateChatCompletion =>
    CreateChatCompletion ctx (c.chatCompletionRequest prompt) w = (.error e, w1)
  | .anthropic MessagesNew => MessagesNew ctx (c.messageNewParams prompt) w = (.error e, w1)
  | .ollama Generate =>
    ∃ fragments, Generate ctx (c.generateRequest prompt) w = ((fragments, some e), w1)

/-! ## Template values -/

/-- The template values that select which code is compiled: `aiProvider` (`none` is the
value "none") and `aiFeatures`. -/
structure Values where
  aiProvider : Option Provider
  aiFeatures : List String
  deriving DecidableEq, Repr

/-! ## Construction of the facade -/

/-- The value `aws.Config` that `awsconfig.LoadDefaultConfig` produces. -/
structure AwsConfig where
  Region : String
  deriving DecidableEq, Repr

/-- The SDK constructors that `Client.init` calls: `awsconfig.LoadDefaultConfig` with
the region option, `bedrockruntime.NewFromConfig`, `openai.NewClient`,
`anthropic.NewClient` with the API-key option, and `api.ClientFromEnvironment`. -/
structure SDK (σ : Type) where
  LoadDefaultConfig : String → Except GoError AwsConfig
  NewFromConfig : AwsConfig →
    (Scope → bedrock.ConverseInput → σ → Except GoError bedrock.ConverseOutput × σ)
  openaiNewClient : String →
    (Scope → openai.ChatCompletionRequest → σ →
      Except GoError openai.ChatCompletionResponse × σ)
  anthropicNewClient : String →
    (Scope → anthropic.MessageNewParams → σ → Except GoError anthropic.Message × σ)
  ClientFromEnvironment :
    Except GoError (Scope → ollama.GenerateRequest → σ →
      (List ollama.GenerateResponse × Option GoError) × σ)

/-- The method `Client.init` of the build for variant `p`: builds the SDK client to bind,
or panics. -/
def Client.init {σ : Type} (p : Provider) (sdk : SDK σ) (cfg : AIConfig) :
    Outcome (Adapter σ) :=
  match p with
  | .bedrock =>
    match sdk.LoadDefaultConfig cfg.Region with
    | .error err => .panic (Errorf "failed to load AWS config: %w" [err])
    | .ok awsCfg => .ret (.bedrock (sdk.NewFromConfig awsCfg))
  | .openai => .ret (.openai (sdk.openaiNewClient cfg.APIKey))
  | .anthropic => .ret (.anthropic (sdk.anthropicNewClient cfg.APIKey))
  | .ollama =>
    match sdk.ClientFromEnvironment with
    | .error err => .panic (Errorf "failed to create Ollama client: %w" [err])
    | .ok client => .ret (.ollama client)

/-- The function `ai.NewClient` of the build for variant `p`: creates a new AI client. -/
def NewClient {σ : Type} (p : Provider) (sdk : SDK σ) (cfg : AIConfig) :
    Outcome (Client σ) :=
  match Client.init p sdk cfg with
  | .ret adapter => .ret { cfg := cfg, adapter := adapter }
  | .panic v => .panic v

/-! ## Package `context`: the lazy client cell (`internal/context/context.go`) -/

/-- The type `sync.Once`: the guard, fired or not. -/
structure Once where
  done : Bool
  deriving DecidableEq, Repr

/-- The struct `output.Formatter`. -/
structure Formatter where
  format : String
  color : Bool
  deriving DecidableEq, Repr

/-- The function `output.NewFormatter`. -/
def NewFormatter (format : String) : Formatter :=
  { format := format, color := true }

/-- The struct `config.Config`, as far as package `context` reads it. -/
structure Config where
  AI : AIConfig
  deriving DecidableEq, Repr

/-- The struct `context.Context` of an enabled build. The field `aiClient` is a pointer:
`none` is nil, `some a` is the address `a` of an `ai.Client` object. -/
structure Context where
  Config : Config
  Output : Formatter
  Verbose : Int
  DryRun : Bool
  aiOnce : Once
  aiClient : Option Nat
  deriving DecidableEq, Repr

/-- The function `NewContext`: the fields it does not set have their zero values. -/
def NewContext (cfg : Config) : Context :=
  { Config := cfg, Output := NewFormatter "auto", Verbose := 0, DryRun := false,
    aiOnce := { done := false }, aiClient := none }

/-- The state of a process around one `Context`: the context, the `ai.Client` objects
that `ai.NewClient` has returned (the address of an object is its index), and how many
times `ai.NewClient` has been entered. -/
structure Process (σ : Type) where
  ctx : Context
  heap : List (Client σ)
  newClientCalls : Nat

/-- The method `(*sync.Once).Do`: `f` runs only if the guard has not fired, and the guard
is marked fired when `f` returns and also when `f` panics (the store is deferred). -/
def Once.Do {S : Type} (get : S → Once) (set : Once → S → S)
    (f : S → Outcome Unit × S) (s : S) : Outcome Unit × S :=
  if (get s).done then (.ret (), s)
  else ((f s).1, set { done := true } (f s).2)

/-- A call of `ai.NewClient` inside the process: the call is counted, and the client it
returns is placed at a fresh address. -/
def Process.NewClient {σ : Type} (p : Provider) (sdk : SDK σ) (cfg : AIConfig)
    (st : Process σ) : Outcome Nat × Process σ :=
  match GoCli.NewClient p sdk cfg with
  | .ret client =>
    (.ret st.heap.length,
      { st with heap := st.heap ++ [client], newClientCalls := st.newClientCalls + 1 })
  | .panic v => (.panic v, { st with newClientCalls := st.newClientCalls + 1 })

/-- The method `Context.AI`: returns the AI client (lazy-loaded). -/
def Context.AI {σ : Type} (p : Provider) (sdk : SDK σ) (st : Process σ) :
    Outcome (Option Nat) × Process σ :=
  match Once.Do (fun s : Process σ => s.ctx.aiOnce)
      (fun o s => { s with ctx := { s.ctx with aiOnce := o } })
      (fun s =>
        match Process.NewClient p sdk s.ctx.Config.AI s with
        | (.ret a, s1) => (.ret (), { s1 with ctx := { s1.ctx with aiClient := some a } })
        | (.panic v, s1) => (.panic v, s1))
      st with
  | (.ret _, st1) => (.ret st1.ctx.aiClient, st1)
  | (.panic v, st1) => (.panic v, st1)

/-- The results of `k` sequential calls of `Context.AI` (a panicking call being
recovered by its caller), and the state after them. -/
def callsAI {σ : Type} (p : Provider) (sdk : SDK σ) :
    Nat → Process σ → List (Outcome (Option Nat)) × Process σ
  | 0, st => ([], st)
  | k + 1, st =>
    ((Context.AI p sdk st).1 :: (callsAI p sdk k (Context.AI p sdk st).2).1,
      (callsAI p sdk k (Context.AI p sdk st).2).2)

/-! ## Package `context`: the process-wide slot -/

/-- The type `sync.RWMutex`: whether a writer holds the lock, and how many readers do. -/
structure RWMutex where
  writer : Bool
  readers : Nat
  deriving DecidableEq, Repr

/-- The method `Lock`: granted when nobody holds the lock; `none` when the caller would
block. -/
def RWMutex.Lock (m : RWMutex) : Option RWMutex :=
  if m.writer = false ∧ m.readers = 0 then some { m with writer := true } else none

/-- The method `Unlock`. -/
def RWMutex.Unlock (m : RWMutex) : RWMutex :=
  { m with writer := false }

/-- The method `RLock`: granted when no writer holds the lock; `none` when the caller
would block. -/
def RWMutex.RLock (m : RWMutex) : Option RWMutex :=
  if m.writer = false then some { m with readers := m.readers + 1 } else none

/-- The method `RUnlock`. -/
def RWMutex.RUnlock (m : RWMutex) : RWMutex :=
  { m with readers := m.readers - 1 }

/-- The package variables `globalCtx` and `globalMu`; `α` is what a `*Context` points
to, and `none` is the nil pointer. -/
structure Globals (α : Type) where
  globalCtx : Option α
  globalMu : RWMutex

/-- The package variables at program start: their zero values. -/
def Globals.zero {α : Type} : Globals α :=
  { globalCtx := none, globalMu := { writer := false, readers := 0 } }

/-- The function `SetGlobal`: sets the global context. The result is `none` when the
call would block on the lock. -/
def SetGlobal {α : Type} (ctx : Option α) (g : Globals α) : Option (Globals α) :=
  match g.globalMu.Lock with
  | none => none
  | some mu =>
    let g1 := { g with globalMu := mu }
    let g2 := { g1 with globalCtx := ctx }
    some { g2 with globalMu := g2.globalMu.Unlock }

/-- The function `GetGlobal`: returns the global context. The result is `none` when the
call would block on the lock. -/
def GetGlobal {α : Type} (g : Globals α) : Option (Option α × Globals α) :=
  match g.globalMu.RLock with
  | none => none
  | some mu =>
    let g1 := { g with globalMu := mu }
    some (g1.globalCtx, { g1 with globalMu := g1.globalMu.RUnlock })

/-- One call on the slot, in program order. -/
inductive GlobalCall (α : Type) where
  | set (ctx : Option α)
  | get

/-- The calls of a sequential program on the slot, run in order: the values its
`GetGlobal` calls return, and the final package variables; `none` if a call blocks. -/
def runGlobal {α : Type} :
    List (GlobalCall α) → Globals α → Option (List (Option α) × Globals α)
  | [], g => some ([], g)
  | .set ctx :: rest, g =>
    match SetGlobal ctx g with
    | none => none
    | some g1 => runGlobal rest g1
  | .get :: rest, g =>
    match GetGlobal g with
    | none => none
    | some (r, g1) =>
      match runGlobal rest g1 with
      | none => none
      | some (rs, g2) => some (r :: rs, g2)

/-! ## Observing the backend -/

/-- The package-level variable `context.Canceled`. -/
def contextCanceled : GoError := .sentinel "context.Canceled" "context canceled"

/-- Go `errors.Is`: the target is the error itself or an error reached from it through
`Unwrap`. The comparison is Go's identity comparison when the target is a package-level
variable (a `sentinel`, equal only to itself); the model keeps no addresses, so two
values built at run time are compared by their contents. -/
def errorsIs : GoError → GoError → Bool
  | .wrapError msg err, target =>
    decide (GoError.wrapError msg err = target) || errorsIs err target
  | .foreignWrap typ msg err, target =>
    decide (GoError.foreignWrap typ msg err = target) || errorsIs err target
  | .errorString s, target => decide (GoError.errorString s = target)
  | .foreign typ msg, target => decide (GoError.foreign typ msg = target)
  | .sentinel name msg, target => decide (GoError.sentinel name msg = target)

/-- The literal text before the `%w` verb in the `fmt.Errorf` format of each variant of
`Chat`. -/
def backendLead : Provider → String
  | .bedrock => "bedrock converse failed: "
  | .openai => "openai chat failed: "
  | .anthropic => "anthropic chat failed: "
  | .ollama => "ollama generate failed: "

/-- A request in the native shape of one of the four backends. -/
inductive NativeRequest where
  | converse (input : bedrock.ConverseInput)
  | chatCompletion (req : openai.ChatCompletionRequest)
  | messagesNew (params : anthropic.MessageNewParams)
  | generate (req : ollama.GenerateRequest)
  deriving DecidableEq, Repr

/-- The same backend, with a log of every call made on it: each call of the SDK method
appends the request it received, then behaves as the original. -/
def Adapter.recording {σ : Type} : Adapter σ → Adapter (σ × List NativeRequest)
  | .bedrock f =>
    .bedrock (fun s i w => ((f s i w.1).1, ((f s i w.1).2, w.2 ++ [.converse i])))
  | .openai f =>
    .openai (fun s r w => ((f s r w.1).1, ((f s r w.1).2, w.2 ++ [.chatCompletion r])))
  | .anthropic f =>
    .anthropic (fun s r w => ((f s r w.1).1, ((f s r w.1).2, w.2 ++ [.messagesNew r])))
  | .ollama g =>
    .ollama (fun s r w => ((g s r w.1).1, ((g s r w.1).2, w.2 ++ [.generate r])))

/-- The same client, bound to the logged backend. -/
def Client.recording {σ : Type} (c : Client σ) : Client (σ × List NativeRequest) :=
  { cfg := c.cfg, adapter := c.adapter.recording }

/-! ## Package `output`: the output collaborator -/

/-- A method of `*output.Formatter` entered by a caller, with its arguments. -/
inductive OutputCall where
  | Info (msg : String)
  | Confirm (message : String) (defaultValue : Bool)
  deriving DecidableEq, Repr

/-- The terminal the formatter talks to: the formatter methods entered so far, the
lines still to be read from standard input, what has been printed, and how the user
answers an interactive confirm form of a given title. -/
structure Terminal where
  calls : List OutputCall
  stdin : List String
  stdout : List String
  form : String → Except GoError Bool

/-- The method `Formatter.Info`: prints an info message. The rendering belongs to the
collaborator; the call is logged. -/
def Formatter.Info (_f : Formatter) (msg : String) (t : Terminal) : Terminal :=
  { t with calls := t.calls ++ [.Info msg] }

/-- The white-space test of package `fmt` (`isSpace`): the Unicode White_Space ranges. -/
def fmtIsSpace (ch : Char) : Bool :=
  (0x0009 ≤ ch.toNat && ch.toNat ≤ 0x000d) || ch.toNat == 0x0020 || ch.toNat == 0x0085 ||
  ch.toNat == 0x00a0 || ch.toNat == 0x1680 || (0x2000 ≤ ch.toNat && ch.toNat ≤ 0x200a) ||
  (0x2028 ≤ ch.toNat && ch.toNat ≤ 0x2029) || ch.toNat == 0x202f || ch.toNat == 0x205f ||
  ch.toNat == 0x3000

/-- Go `fmt.Scanln` into one string variable: leading white space of the next input
line is skipped and the word up to the next white space is stored; the variable keeps
the empty string when the line has no word or there is no line. -/
def Scanln (t : Terminal) : String × Terminal :=
  match t.stdin with
  | [] => ("", t)
  | line :: rest =>
    (String.mk ((line.data.dropWhile fmtIsSpace).takeWhile (fun ch => !fmtIsSpace ch)),
      { t with stdin := rest })

/-- The method `Formatter.Confirm`: prompts the user for confirmation. `charm` selects
the template variant `values.outputFormat == "charm"` (an interactive form) or the
simple text-based confirmation. -/
def Formatter.Confirm (charm : Bool) (_f : Formatter) (message : String)
    (defaultValue : Bool) (t : Terminal) : Bool × Terminal :=
  let t0 : Terminal := { t with calls := t.calls ++ [OutputCall.Confirm message defaultValue] }
  if charm then
    match t0.form message with
    | .error _ => (defaultValue, t0)
    | .ok confirm => (confirm, t0)
  else
    let defaultStr := if defaultValue then "y" else "n"
    let t1 : Terminal := { t0 with
      stdout := t0.stdout ++ [Sprintf "%s [y/N] (default: %s): " [message, defaultStr]] }
    let response := (Scanln t1).1
    let t2 := (Scanln t1).2
    if response = "" then (defaultValue, t2)
    else (response = "y" || response = "Y" || response = "yes", t2)

/-- The method `Context.Confirm`: asks the user for confirmation. -/
def Context.Confirm (charm : Bool) (c : Context) (message : String) (defaultValue : Bool)
    (t : Terminal) : Bool × Terminal :=
  if c.DryRun then (false, t)
  else c.Output.Confirm charm message defaultValue t

/-! ## Package `cli/ai`: the command handlers (`internal/cli/ai/ai.go`) -/

/-- The value of `values.cliFramework`. -/
inductive Framework where
  | cobra
  | urfave
  deriving DecidableEq, Repr

/-- The facade operation a command handler calls. -/
inductive FacadeOp where
  | chat
  | analyze
  | summarize
  | generate
  deriving DecidableEq, Repr

/-- The facade call of each handler: `Chat`, `Analyze`, `Summarize`, or `Generate` with
the nil options map. -/
def FacadeOp.call {σ : Type} (op : FacadeOp) (c : Client σ) (ctx : Scope) (arg : String)
    (w : σ) : Outcome (String × Option GoError) × σ :=
  match op with
  | .chat => c.Chat ctx arg w
  | .analyze => c.Analyze ctx arg w
  | .summarize => c.Summarize ctx arg w
  | .generate => c.Generate ctx arg none w

/-- The state a command handler runs in: the package variables of `context` (the slot
holds the context object itself), the `ai.Client` objects and constructor count of the
lazy cell, the backend, the terminal, and how often the framework's help was shown. -/
structure World (σ : Type) where
  globals : Globals Context
  heap : List (Client σ)
  newClientCalls : Nat
  backend : σ
  term : Terminal
  helpShown : Nat

/-- The panic of dereferencing a nil pointer. -/
def nilPointerPanic : GoError :=
  .foreign "runtime.Error" "invalid memory address or nil pointer dereference"

/-- The panic of indexing a slice out of range. -/
def indexPanic : GoError :=
  .foreign "runtime.Error" "index out of range"

/-- The world after a call of `Context.AI` on the published context. -/
def World.store {σ : Type} (w : World σ) (pr : Process σ) : World σ :=
  { w with globals := { w.globals with globalCtx := some pr.ctx },
           heap := pr.heap, newClientCalls := pr.newClientCalls }

/-- The part common to the eight handlers, from `ctx.AI().Op(scope, arg)` on: the facade
call, the error check, and `ctx.Output.Info` of the returned text. -/
def runFacade {σ : Type} (p : Provider) (sdk : SDK σ) (op : FacadeOp) (scope : Scope)
    (arg : String) (ctx : Option Context) (w : World σ) :
    Outcome (Option GoError) × World σ :=
  match ctx with
  | none => (.panic nilPointerPanic, w)
  | some c =>
    match Context.AI p sdk { ctx := c, heap := w.heap, newClientCalls := w.newClientCalls } with
    | (.panic v, pr) => (.panic v, w.store pr)
    | (.ret none, pr) => (.panic nilPointerPanic, w.store pr)
    | (.ret (some a), pr) =>
      match pr.heap[a]? with
      | none => (.panic nilPointerPanic, w.store pr)
      | some client =>
        match op.call client scope arg w.backend with
        | (.panic v, b1) => (.panic v, { w.store pr with backend := b1 })
        | (.ret (_, some err), b1) => (.ret (some err), { w.store pr with backend := b1 })
        | (.ret (response, none), b1) =>
          (.ret none,
            { w.store pr with
              backend := b1, term := pr.ctx.Output.Info response w.term })

namespace cobra

/-- The `RunE` closures of `chatCmd`, `analyzeCmd`, `summarizeCmd`, `generateCmd` of the
cobra variant; `scope` is `cmd.Context()`. The result is `none` when `GetGlobal` would
block. -/
def RunE {σ : Type} (op : FacadeOp) (p : Provider) (sdk : SDK σ) (scope : Scope)
    (args : List String) (w : World σ) : Option (Outcome (Option GoError) × World σ) :=
  match GetGlobal w.globals with
  | none => none
  | some (ctx, g1) =>
    match args with
    | [] => some (.panic indexPanic, { w with globals := g1 })
    | prompt :: _ => some (runFacade p sdk op scope prompt ctx { w with globals := g1 })

end cobra

namespace urfave

/-- The `Action` closures of `chatCmd`, `analyzeCmd`, `summarizeCmd`, `generateCmd` of
the urfave variant; `scope` is `c.Context`, `help` is what `cli.ShowSubcommandHelp`
returns. The result is `none` when `GetGlobal` would block. -/
def Action {σ : Type} (op : FacadeOp) (p : Provider) (sdk : SDK σ) (help : Option GoError)
    (scope : Scope) (args : List String) (w : World σ) :
    Option (Outcome (Option GoError) × World σ) :=
  if args.length < 1 then some (.ret help, { w with helpShown := w.helpShown + 1 })
  else
    match GetGlobal w.globals with
    | none => none
    | some (ctx, g1) =>
      some (runFacade p sdk op scope (args.headD "") ctx { w with globals := g1 })

end urfave

/-! ## The disabled build of package `cli/ai` and command registration -/

namespace disabled

/-- The action of the placeholder `Cmd`, as a function of the argument list. The urfave
rendering declares an `Action` that returns the error. The cobra rendering never closes
its import block and does not list `fmt` in it, so the file does not parse and declares
no `RunE`: `none`. -/
def Cmd (fw : Framework) : Option (List String → Option GoError) :=
  match fw with
  | .cobra => none
  | .urfave => some (fun _ => some (Errorf "AI features not enabled in this build" []))

end disabled

/-- The function `registerCommands` of `internal/cli/root.go`: the names of the
commands it registers (cobra) or returns (urfave), for the template values and the
selected integrations. -/
def registerCommands (fw : Framework) (v : Values) (integrations : List String) :
    List String :=
  match fw with
  | .cobra => (if v.aiProvider ≠ none then ["ai"] else []) ++ integrations
  | .urfave => ["config"] ++ (if v.aiProvider ≠ none then ["ai"] else []) ++ integrations

/-- The names of all commands of the root command: in the cobra variant `init` adds
"version" and "config" before calling `registerCommands`; in the urfave variant the
commands are those `registerCommands` returns. -/
def rootCommands (fw : Framework) (v : Values) (integrations : List String) : List String :=
  match fw with
  | .cobra => ["version", "config"] ++ registerCommands fw v integrations
  | .urfave => registerCommands fw v integrations

/-! ## Stub backends -/

/-- A configuration naming the model "gpt-4". -/
def cfgGpt4 : AIConfig :=
  { Provider := "openai", Region := "", APIKey := "sk-test", Host := "", Model := "gpt-4" }

/-- A hosted-completion stub: one choice "hello world" for the prompt "hi", no choice
for any other prompt. -/
def stubHello : Client Unit :=
  { cfg := cfgGpt4,
    adapter := .openai (fun _ req w =>
      if req.Messages.map (fun m => m.Content) = ["hi"] then
        (.ok { Choices := [{ Message := { Role := "assistant", Content := "hello world" } }] }, w)
      else (.ok { Choices := [] }, w)) }

/-- A local-server stub whose call succeeds without streaming any fragment. -/
def stubSilent : Client Unit :=
  { cfg := { Provider := "ollama", Region := "", APIKey := "", Host := "", Model := "llama3" },
    adapter := .ollama (fun _ _ w => (([], none), w)) }

/-- A local-server stub whose call succeeds streaming two empty fragments. -/
def stubBlank : Client Unit :=
  { cfg := { Provider := "ollama", Region := "", APIKey := "", Host := "", Model := "llama3" },
    adapter := .ollama (fun _ _ w => (([{ Response := "" }, { Response := "" }], none), w)) }

/-- A managed-cloud stub answering with a tool-use block followed by a text block. -/
def stubToolThenText : Client Unit :=
  { cfg := { Provider := "bedrock", Region := "us-east-1", APIKey := "", Host := "",
             Model := "claude" },
    adapter := .bedrock (fun _ _ w =>
      (.ok ⟨.message { Role := .assistant, Content := [.other "toolUse", .text "hello"] }⟩,
        w)) }

/-- A managed-cloud stub answering with a single text block. -/
def stubBedrockText : Client Unit :=
  { cfg := { Provider := "bedrock", Region := "us-east-1", APIKey := "", Host := "",
             Model := "claude" },
    adapter := .bedrock (fun _ _ w =>
      (.ok { Output := .message { Role := .assistant, Content := [.text "hello"] } }, w)) }

/-- A conversational-api stub answering with a single text block. -/
def stubAnthropicText : Client Unit :=
  { cfg := { Provider := "anthropic", Region := "", APIKey := "k", Host := "",
             Model := "claude" },
    adapter := .anthropic (fun _ _ w => (.ok { Content := [.text "hello"] }, w)) }

/-- A hosted-completion stub whose call always fails with a timeout error. -/
def stubTimeout : Client Unit :=
  { cfg := cfgGpt4,
    adapter := .openai (fun _ _ w => (.error (.foreign "net.OpError" "i/o timeout"), w)) }

/-- Stub SDK constructors: AWS credential discovery and the local-server environment
both fail; the hosted clients are built and answer with empty responses. -/
def stubSDK : SDK Unit :=
  { LoadDefaultConfig := fun _ => .error (.errorString "no credentials"),
    NewFromConfig := fun _ => fun _ _ w => (.ok ⟨.nil⟩, w),
    openaiNewClient := fun _ => fun _ _ w => (.ok ⟨[]⟩, w),
    anthropicNewClient := fun _ => fun _ _ w => (.ok ⟨[]⟩, w),
    ClientFromEnvironment := .error (.errorString "bad OLLAMA_HOST") }

/-- A process right after `NewContext`: no client allocated, no constructor call. -/
def freshProcess : Process Unit :=
  { ctx := NewContext { AI := cfgGpt4 }, heap := [], newClientCalls := 0 }

/-- A hosted-completion stub that fails with `context.Canceled` when the scope is
cancelled and answers "ok" otherwise. -/
def stubCancelled : Client Unit :=
  { cfg := cfgGpt4,
    adapter := .openai (fun s _ w =>
      if s.cancelled then (.error contextCanceled, w)
      else (.ok { Choices := [{ Message := { Role := "assistant", Content := "ok" } }] }, w)) }

/-- Stub SDK constructors whose hosted-completion client is the "hello world" stub. -/
def helloSDK : SDK Unit :=
  { stubSDK with
    openaiNewClient := fun _ => fun _ req w =>
      if req.Messages.map (fun m => m.Content) = ["hi"] then
        (.ok { Choices := [{ Message := { Role := "assistant", Content := "hello world" } }] }, w)
      else (.ok { Choices := [] }, w) }

/-- A terminal with nothing printed, one pending input line "yes", and a user who
declines every form. -/
def stubTerminal : Terminal :=
  { calls := [], stdin := ["yes"], stdout := [], form := fun _ => .ok false }

/-- A world right after the root command has published a fresh context. -/
def freshWorld : World Unit :=
  { globals := { globalCtx := some (NewContext { AI := cfgGpt4 }),
                 globalMu := { writer := false, readers := 0 } },
    heap := [], newClientCalls := 0, backend := (), term := stubTerminal, helpShown := 0 }

/-! ## Facts about the `fmt` model -/

/-- A format that is literal text followed by one of the verbs `%s`, `%v`, `%w` prints
the text, then the operand. -/
theorem sprintfAux_literal_then_verb (lit : List Char) (h : '%' ∉ lit) (v : Char)
    (hv : v = 's' ∨ v = 'v' ∨ v = 'w') (t : String) :
    sprintfAux (lit ++ ['%', v]) [t] = lit ++ t.data := by
  have hne : v ≠ '%' := by rcases hv with e | e | e <;> subst e <;> decide
  induction lit with
  | nil => simp [sprintfAux, hne, hv]
  | cons c rest ih =>
    have hc : c ≠ '%' := fun e => h (by simp [e])
    have hrest : '%' ∉ rest := fun m => h (List.mem_cons_of_mem _ m)
    cases rest with
    | nil => simp [sprintfAux, hc, hne, hv]
    | cons d rest2 =>
      have := ih hrest
      simp only [List.cons_append] at this ⊢
      rw [sprintfAux]
      simp [hc, this]

/-- The `Sprintf` of literal text followed by one `%s`. -/
theorem Sprintf_literal_then_s (lit : String) (h : '%' ∉ lit.data) (t : String) :
    Sprintf (lit ++ "%s") [t] = lit ++ t := by
  have h1 : (lit ++ "%s").data = lit.data ++ ['%', 's'] := rfl
  simp only [Sprintf, h1, sprintfAux_literal_then_verb lit.data h 's' (Or.inl rfl) t]
  rfl

/-- The operand wrapped by a format that is literal text followed by one `%w`. -/
theorem wrapOperand_literal_then_w (lit : List Char) (h : '%' ∉ lit) (e : GoError) :
    wrapOperand (lit ++ ['%', 'w']) [e] = some e := by
  induction lit with
  | nil => simp [wrapOperand]
  | cons c rest ih =>
    have hc : c ≠ '%' := fun e => h (by simp [e])
    have hrest : '%' ∉ rest := fun m => h (List.mem_cons_of_mem _ m)
    cases rest with
    | nil => simp [wrapOperand, hc]
    | cons d rest2 =>
      have := ih hrest
      simp only [List.cons_append] at this ⊢
      rw [wrapOperand]
      simp [hc, this]

/-- The error built by `fmt.Errorf` from literal text followed by one `%w`: it wraps the
operand, and its message is the text followed by the operand's message. -/
theorem Errorf_literal_then_w (lit : String) (h : '%' ∉ lit.data) (e : GoError) :
    Errorf (lit ++ "%w") [e] = .wrapError (lit ++ e.Error) e := by
  have h1 : (lit ++ "%w").data = lit.data ++ ['%', 'w'] := rfl
  simp only [Errorf, Sprintf, h1, List.map_cons, List.map_nil,
    sprintfAux_literal_then_verb lit.data h 'w' (Or.inr (Or.inr rfl)) e.Error,
    wrapOperand_literal_then_w lit.data h e]
  rfl

/-- The error built by `fmt.Errorf("no response from model")`. -/
theorem Errorf_no_response :
    Errorf "no response from model" [] = .errorString "no response from model" := by
  decide

/-! ## The facade operations delegate to `Chat` -/

/-- The prompt `Analyze` formats and hands to `Chat`. -/
theorem Analyze_prompt {σ : Type} (c : Client σ) (s : Scope) (t : String) (w : σ) :
    c.Analyze s t w =
      c.Chat s ("Analyze the following text and provide insights:\n\n" ++ t) w := by
  have h := Sprintf_literal_then_s "Analyze the following text and provide insights:\n\n"
    (by decide) t
  have e : ("Analyze the following text and provide insights:\n\n" ++ "%s" : String)
      = "Analyze the following text and provide insights:\n\n%s" := by decide
  rw [e] at h
  simp only [Client.Analyze, h]

/-- The prompt `Summarize` formats and hands to `Chat`. -/
theorem Summarize_prompt {σ : Type} (c : Client σ) (s : Scope) (t : String) (w : σ) :
    c.Summarize s t w =
      c.Chat s ("Summarize the following text concisely:\n\n" ++ t) w := by
  have h := Sprintf_literal_then_s "Summarize the following text concisely:\n\n"
    (by decide) t
  have e : ("Summarize the following text concisely:\n\n" ++ "%s" : String)
      = "Summarize the following text concisely:\n\n%s" := by decide
  rw [e] at h
  simp only [Client.Summarize, h]

/-- C1: for every facade client, scope and text, `Analyze` returns exactly what `Chat`
returns on the prompt made of the instruction "Analyze the following text and provide
insights:", two newline characters, and the text unchanged (same result, same backend
state afterwards). -/
theorem Analyze_eq_Chat {σ : Type} (c : Client σ) (s : Scope) (t : String) (w : σ) :
    c.Analyze s t w =
      c.Chat s ("Analyze the following text and provide insights:" ++ "\n\n" ++ t) w := by
  rw [Analyze_prompt]
  rfl

/-- C2: for every facade client, scope and text, `Summarize` returns exactly what `Chat`
returns on the prompt made of the instruction "Summarize the following text concisely:",
two newline characters, and the text unchanged (same result, same backend state
afterwards). -/
theorem Summarize_eq_Chat {σ : Type} (c : Client σ) (s : Scope) (t : String) (w : σ) :
    c.Summarize s t w =
      c.Chat s ("Summarize the following text concisely:" ++ "\n\n" ++ t) w := by
  rw [Summarize_prompt]
  rfl

/-- C3: for every facade client, scope, prompt and options map (nil or not), `Generate`
returns exactly what `Chat` returns on the same prompt, so its result is the same for
any two options maps. -/
theorem Generate_eq_Chat {σ : Type} (c : Client σ) (s : Scope) (p : String)
    (o : Option (List (String × AnyValue))) (w : σ) :
    c.Generate s p o w = c.Chat s p w ∧
      ∀ o2 : Option (List (String × AnyValue)), c.Generate s p o2 w = c.Generate s p o w :=
  ⟨rfl, fun _ => rfl⟩

/-! ## Response extraction per adapter -/

/-- C4: for the hosted-completion adapter, when the backend call succeeds with a
non-empty list of choices `Chat` returns the content of the first choice's message
with a nil error, and when it succeeds with zero choices `Chat` returns the empty
string with the non-nil error whose message is "no response from model". -/
theorem openai_Chat_choices {σ : Type} (cfg : AIConfig)
    (f : Scope → openai.ChatCompletionRequest → σ →
      Except GoError openai.ChatCompletionResponse × σ)
    (s : Scope) (p : String) (w : σ) (resp : openai.ChatCompletionResponse) (w1 : σ)
    (h : f s (Client.chatCompletionRequest ⟨cfg, .openai f⟩ p) w = (.ok resp, w1)) :
    (∀ ch rest, resp.Choices = ch :: rest →
        Client.Chat ⟨cfg, .openai f⟩ s p w = (.ret (ch.Message.Content, none), w1)) ∧
    (resp.Choices = [] →
        Client.Chat ⟨cfg, .openai f⟩ s p w
          = (.ret ("", some (.errorString "no response from model")), w1) ∧
        (GoError.errorString "no response from model").Error = "no response from model") := by
  refine ⟨fun ch rest hc => ?_, fun hc => ⟨?_, rfl⟩⟩
  · simp [Client.Chat, h, hc]
  · simp [Client.Chat, h, hc, Errorf_no_response]

/-- C4, at the stub of the end-to-end scenario: model "gpt-4", choice text "hello world"
for the prompt "hi". -/
theorem openai_Chat_choices_witness :
    stubHello.cfg.Model = "gpt-4" ∧
    stubHello.Chat ⟨false⟩ "hi" () = (.ret ("hello world", none), ()) ∧
    stubHello.Chat ⟨false⟩ "bye" ()
      = (.ret ("", some (.errorString "no response from model")), ()) :=
  ⟨rfl,
   (openai_Chat_choices cfgGpt4 _ ⟨false⟩ "hi" ()
      { Choices := [{ Message := { Role := "assistant", Content := "hello world" } }] } ()
      rfl).1 _ _ rfl,
   ((openai_Chat_choices cfgGpt4 _ ⟨false⟩ "bye" () { Choices := [] } ()
      rfl).2 rfl).1⟩

/-- The callback of the ollama variant never fails, so the streaming loop hands back
the concatenation of the fragments and the transport's own final error. -/
theorem ollama_stream_collect (fragments : List ollama.GenerateResponse)
    (final : Option GoError) (acc : String) :
    ollama.stream (fun resp response => (response ++ resp.Response, none)) fragments final acc
      = (fragments.foldl (fun a r => a ++ r.Response) acc, final) := by
  induction fragments generalizing acc with
  | nil => rfl
  | cons r rs ih => simp [ollama.stream, ih]

/-- A local-server call that succeeds returns the concatenated fragments and a nil
error, whatever the fragments are. -/
theorem ollama_Chat_success {σ : Type} (cfg : AIConfig)
    (g : Scope → ollama.GenerateRequest → σ →
      (List ollama.GenerateResponse × Option GoError) × σ)
    (s : Scope) (p : String) (w : σ) (fragments : List ollama.GenerateResponse) (w1 : σ)
    (h : g s (Client.generateRequest ⟨cfg, .ollama g⟩ p) w = ((fragments, none), w1)) :
    Client.Chat ⟨cfg, .ollama g⟩ s p w
      = (.ret (fragments.foldl (fun a r => a ++ r.Response) "", none), w1) := by
  simp [Client.Chat, h, ollama_stream_collect]

/-- C5, the code at the failing inputs: for every scope and prompt, a local-server
backend that succeeds without invoking the callback, and one that streams only empty
fragments, both make `Chat` return the empty string with a nil error, not an
empty-response error. -/
theorem ollama_Chat_no_content_nil_error (s : Scope) (p : String) :
    stubSilent.Chat s p () = (.ret ("", none), ()) ∧
    stubBlank.Chat s p () = (.ret ("", none), ()) :=
  ⟨ollama_Chat_success _ _ s p () [] () rfl,
   ollama_Chat_success _ _ s p () [{ Response := "" }, { Response := "" }] () rfl⟩

/-- C6 as stated fails: the managed-cloud backend answers the prompt "hi" with a message
whose content list holds a text block "hello" after a tool-use block, and `Chat`
returns the "no response from model" error instead of ("hello", nil), although
content blocks are present. -/
theorem Chat_text_block_not_first :
    (match stubToolThenText.adapter with
      | .bedrock f => f ⟨false⟩ (stubToolThenText.converseInput "hi") ()
          = (.ok ⟨.message ⟨.assistant, [.other "toolUse", .text "hello"]⟩⟩, ())
      | _ => False) ∧
    stubToolThenText.Chat ⟨false⟩ "hi" ()
      = (.ret ("", some (.errorString "no response from model")), ()) ∧
    stubToolThenText.Chat ⟨false⟩ "hi" () ≠ (.ret ("hello", none), ()) := by
  refine ⟨rfl, by decide, by decide⟩

/-- C6 amended: for the managed-cloud adapter (on a successful response whose output is
a message) and the conversational-api adapter (on a successful response), if the first
content block is a text block `Chat` returns its text with a nil error; if the content
list is empty or its first block is not a text block, `Chat` returns the empty string
with the "no response from model" error. -/
theorem Chat_first_content_block {σ : Type} :
    (∀ (cfg : AIConfig)
        (f : Scope → bedrock.ConverseInput → σ → Except GoError bedrock.ConverseOutput × σ)
        (s : Scope) (p : String) (w : σ) (m : bedrock.Message) (w1 : σ),
        f s (Client.converseInput ⟨cfg, .bedrock f⟩ p) w = (.ok ⟨.message m⟩, w1) →
        (∀ v rest, m.Content = .text v :: rest →
          Client.Chat ⟨cfg, .bedrock f⟩ s p w = (.ret (v, none), w1)) ∧
        ((m.Content = [] ∨ ∃ k rest, m.Content = .other k :: rest) →
          Client.Chat ⟨cfg, .bedrock f⟩ s p w
            = (.ret ("", some (.errorString "no response from model")), w1))) ∧
    (∀ (cfg : AIConfig)
        (f : Scope → anthropic.MessageNewParams → σ → Except GoError anthropic.Message × σ)
        (s : Scope) (p : String) (w : σ) (m : anthropic.Message) (w1 : σ),
        f s (Client.messageNewParams ⟨cfg, .anthropic f⟩ p) w = (.ok m, w1) →
        (∀ v rest, m.Content = .text v :: rest →
          Client.Chat ⟨cfg, .anthropic f⟩ s p w = (.ret (v, none), w1)) ∧
        ((m.Content = [] ∨ ∃ k rest, m.Content = .other k :: rest) →
          Client.Chat ⟨cfg, .anthropic f⟩ s p w
            = (.ret ("", some (.errorString "no response from model")), w1))) := by
  refine ⟨fun cfg f s p w m w1 h => ⟨fun v rest hc => ?_, fun hc => ?_⟩,
          fun cfg f s p w m w1 h => ⟨fun v rest hc => ?_, fun hc => ?_⟩⟩
  · simp [Client.Chat, h, hc]
  · rcases hc with hc | ⟨k, rest, hc⟩ <;> simp [Client.Chat, h, hc, Errorf_no_response]
  · simp [Client.Chat, h, hc]
  · rcases hc with hc | ⟨k, rest, hc⟩ <;> simp [Client.Chat, h, hc, Errorf_no_response]

/-- C6 amended, at stubs: a single text block "hello" is returned by both adapters, and
a tool-use block in first position gives the "no response from model" error. -/
theorem Chat_first_content_block_witness :
    stubBedrockText.Chat ⟨false⟩ "hi" () = (.ret ("hello", none), ()) ∧
    stubAnthropicText.Chat ⟨false⟩ "hi" () = (.ret ("hello", none), ()) ∧
    stubToolThenText.Chat ⟨false⟩ "bye" ()
      = (.ret ("", some (.errorString "no response from model")), ()) :=
  ⟨((@Chat_first_content_block Unit).1 _ _ ⟨false⟩ "hi" ()
      ⟨.assistant, [.text "hello"]⟩ () rfl).1 "hello" [] rfl,
   ((@Chat_first_content_block Unit).2 _ _ ⟨false⟩ "hi" ()
      ⟨[.text "hello"]⟩ () rfl).1 "hello" [] rfl,
   ((@Chat_first_content_block Unit).1 _ _ ⟨false⟩ "bye" ()
      ⟨.assistant, [.other "toolUse", .text "hello"]⟩ () rfl).2
      (Or.inr ⟨"toolUse", [.text "hello"], rfl⟩)⟩

/-! ## Backend errors -/

/-- C7: for every adapter variant, prompt and backend error `e`, if the backend call
that `Chat` issues fails with `e`, then `Chat` returns the empty string with a non-nil
error that unwraps to `e` and whose message is the variant's backend-operation lead
("bedrock converse failed: ", "openai chat failed: ", "anthropic chat failed: ",
"ollama generate failed: ") followed by the message of `e`; `Generate`, `Analyze` and
`Summarize` hand back that same error, so the lead never names the facade operation. -/
theorem Chat_backend_error_wrapped {σ : Type} (c : Client σ) (s : Scope) (p : String)
    (w : σ) (e : GoError) (w1 : σ) (h : c.BackendFails s p w e w1) :
    ∃ err : GoError,
      c.Chat s p w = (.ret ("", some err), w1) ∧
      err.Unwrap = some e ∧
      err.Error = (match c.adapter.provider with
        | .bedrock => "bedrock converse failed: "
        | .openai => "openai chat failed: "
        | .anthropic => "anthropic chat failed: "
        | .ollama => "ollama generate failed: ") ++ e.Error ∧
      (∀ o, c.Generate s p o w = (.ret ("", some err), w1)) ∧
      (∀ t, p = "Analyze the following text and provide insights:\n\n" ++ t →
        c.Analyze s t w = (.ret ("", some err), w1)) ∧
      (∀ t, p = "Summarize the following text concisely:\n\n" ++ t →
        c.Summarize s t w = (.ret ("", some err), w1)) := by
  have key : ∀ (lead : String), '%' ∉ lead.data →
      c.Chat s p w = (.ret ("", some (Errorf (lead ++ "%w") [e])), w1) →
      (match c.adapter.provider with
        | .bedrock => "bedrock converse failed: "
        | .openai => "openai chat failed: "
        | .anthropic => "anthropic chat failed: "
        | .ollama => "ollama generate failed: ") = lead →
      ∃ err : GoError,
        c.Chat s p w = (.ret ("", some err), w1) ∧
        err.Unwrap = some e ∧
        err.Error = (match c.adapter.provider with
          | .bedrock => "bedrock converse failed: "
          | .openai => "openai chat failed: "
          | .anthropic => "anthropic chat failed: "
          | .ollama => "ollama generate failed: ") ++ e.Error ∧
        (∀ o, c.Generate s p o w = (.ret ("", some err), w1)) ∧
        (∀ t, p = "Analyze the following text and provide insights:\n\n" ++ t →
          c.Analyze s t w = (.ret ("", some err), w1)) ∧
        (∀ t, p = "Summarize the following text concisely:\n\n" ++ t →
          c.Summarize s t w = (.ret ("", some err), w1)) := by
    intro lead hl hchat hlead
    rw [Errorf_literal_then_w lead hl e] at hchat
    refine ⟨_, hchat, rfl, ?_, fun o => hchat, fun t ht => ?_, fun t ht => ?_⟩
    · rw [hlead]; rfl
    · rw [Analyze_prompt, ← ht]; exact hchat
    · rw [Summarize_prompt, ← ht]; exact hchat
  obtain ⟨cfg, ad⟩ := c
  cases ad with
  | bedrock f =>
    simp only [Client.BackendFails] at h
    exact key "bedrock converse failed: " (by decide) (by simp [Client.Chat, h]) rfl
  | openai f =>
    simp only [Client.BackendFails] at h
    exact key "openai chat failed: " (by decide) (by simp [Client.Chat, h]) rfl
  | anthropic f =>
    simp only [Client.BackendFails] at h
    exact key "anthropic chat failed: " (by decide) (by simp [Client.Chat, h]) rfl
  | ollama g =>
    simp only [Client.BackendFails] at h
    obtain ⟨fragments, h⟩ := h
    exact key "ollama generate failed: " (by decide)
      (by simp [Client.Chat, h, ollama_stream_collect]) rfl

/-- C7, at a stub: a hosted-completion backend failing with "i/o timeout" makes `Chat`
return the error "openai chat failed: i/o timeout" wrapping the backend's error. -/
theorem Chat_backend_error_wrapped_witness :
    stubTimeout.BackendFails ⟨false⟩ "hi" () (.foreign "net.OpError" "i/o timeout") () ∧
    ∃ err : GoError,
      stubTimeout.Chat ⟨false⟩ "hi" () = (.ret ("", some err), ()) ∧
      err.Unwrap = some (.foreign "net.OpError" "i/o timeout") ∧
      err.Error = "openai chat failed: i/o timeout" :=
  ⟨rfl,
   let ⟨err, h1, h2, h3, _⟩ :=
     Chat_backend_error_wrapped stubTimeout ⟨false⟩ "hi" ()
       (.foreign "net.OpError" "i/o timeout") () rfl
   ⟨err, h1, h2, h3.trans (by decide)⟩⟩

/-! ## The lazy cell -/

/-- Once the guard has fired, `Context.AI` returns the stored pointer and changes nothing. -/
theorem AI_guard_fired {σ : Type} (p : Provider) (sdk : SDK σ) (st : Process σ)
    (h : st.ctx.aiOnce.done = true) :
    Context.AI p sdk st = (.ret st.ctx.aiClient, st) := by
  simp [Context.AI, Once.Do, h]

/-- Once the guard has fired, any number of calls return the stored pointer and change
nothing. -/
theorem callsAI_guard_fired {σ : Type} (p : Provider) (sdk : SDK σ) (k : Nat)
    (st : Process σ) (h : st.ctx.aiOnce.done = true) :
    callsAI p sdk k st = (List.replicate k (.ret st.ctx.aiClient), st) := by
  induction k with
  | zero => rfl
  | succ n ih => simp [callsAI, AI_guard_fired p sdk st h, ih, List.replicate_succ]

/-- The first access when construction succeeds: the client is built, stored, and the
guard fires. -/
theorem AI_first_ok {σ : Type} (p : Provider) (sdk : SDK σ) (st : Process σ)
    (c : Client σ) (h : st.ctx.aiOnce.done = false)
    (hok : NewClient p sdk st.ctx.Config.AI = .ret c) :
    Context.AI p sdk st =
      (.ret (some st.heap.length),
        { ctx := { st.ctx with aiOnce := { done := true }, aiClient := some st.heap.length },
          heap := st.heap ++ [c],
          newClientCalls := st.newClientCalls + 1 }) := by
  simp [Context.AI, Once.Do, h, Process.NewClient, hok]

/-- The first access when construction panics: the panic propagates, nothing is stored,
and the guard fires all the same. -/
theorem AI_first_panic {σ : Type} (p : Provider) (sdk : SDK σ) (st : Process σ)
    (v : GoError) (h : st.ctx.aiOnce.done = false)
    (hp : NewClient p sdk st.ctx.Config.AI = .panic v) :
    Context.AI p sdk st =
      (.panic v,
        { ctx := { st.ctx with aiOnce := { done := true } },
          heap := st.heap,
          newClientCalls := st.newClientCalls + 1 }) := by
  simp [Context.AI, Once.Do, h, Process.NewClient, hp]

/-- C9: for every context whose guard has not fired and every `k ≥ 1`, if the
construction of the first call succeeds, then `ai.NewClient` runs during the first call,
it has run exactly once after all `k` sequential calls, all `k` calls return the same
client address, and that address holds the client that was constructed. -/
theorem AI_constructs_once {σ : Type} (p : Provider) (sdk : SDK σ) (st : Process σ)
    (c : Client σ) (k : Nat) (hk : 1 ≤ k) (hfresh : st.ctx.aiOnce.done = false)
    (hok : NewClient p sdk st.ctx.Config.AI = .ret c) :
    (Context.AI p sdk st).2.newClientCalls = st.newClientCalls + 1 ∧
    (callsAI p sdk k st).2.newClientCalls = st.newClientCalls + 1 ∧
    (callsAI p sdk k st).1 = List.replicate k (.ret (some st.heap.length)) ∧
    (callsAI p sdk k st).2.heap[st.heap.length]? = some c := by
  obtain ⟨n, rfl⟩ : ∃ n, k = n + 1 := ⟨k - 1, by omega⟩
  have h1 := AI_first_ok p sdk st c hfresh hok
  refine ⟨by rw [h1], ?_, ?_, ?_⟩ <;>
    simp [callsAI, h1, callsAI_guard_fired, List.replicate_succ]

/-- C9, at a stub: three calls on a fresh context of the hosted-completion build
construct one client and return its address three times. -/
theorem AI_constructs_once_witness :
    (callsAI .openai stubSDK 3 freshProcess).1
      = [.ret (some 0), .ret (some 0), .ret (some 0)] ∧
    (callsAI .openai stubSDK 3 freshProcess).2.newClientCalls = 1 :=
  have h := AI_constructs_once .openai stubSDK freshProcess
    { cfg := cfgGpt4, adapter := .openai (stubSDK.openaiNewClient cfgGpt4.APIKey) }
    3 (by decide) rfl rfl
  ⟨h.2.2.1, h.2.1⟩

/-- C10: for every context whose guard has not fired and whose client pointer is nil, if
the constructor panics during the first call, that call panics with the constructor's
value and the guard is marked fired; every later call (any number `k` of them) returns
the nil client, the constructor has still run only once, and the guard stays fired. -/
theorem AI_failure_not_retried {σ : Type} (p : Provider) (sdk : SDK σ) (st : Process σ)
    (v : GoError) (k : Nat) (hfresh : st.ctx.aiOnce.done = false)
    (hnil : st.ctx.aiClient = none)
    (hpanic : NewClient p sdk st.ctx.Config.AI = .panic v) :
    (Context.AI p sdk st).1 = .panic v ∧
    (Context.AI p sdk st).2.ctx.aiOnce.done = true ∧
    (callsAI p sdk k (Context.AI p sdk st).2).1 = List.replicate k (.ret none) ∧
    (callsAI p sdk k (Context.AI p sdk st).2).2.newClientCalls = st.newClientCalls + 1 ∧
    (callsAI p sdk k (Context.AI p sdk st).2).2.ctx.aiOnce.done = true := by
  have h1 := AI_first_panic p sdk st v hfresh hpanic
  rw [h1]
  refine ⟨rfl, rfl, ?_, ?_, ?_⟩ <;> simp [callsAI_guard_fired, hnil]

/-- C10, at a stub: in the managed-cloud build with failing credential discovery the
first call panics, and two later calls return nil without a second constructor run. -/
theorem AI_failure_not_retried_witness :
    (Context.AI .bedrock stubSDK freshProcess).1
      = .panic (.wrapError "failed to load AWS config: no credentials"
          (.errorString "no credentials")) ∧
    (callsAI .bedrock stubSDK 2 (Context.AI .bedrock stubSDK freshProcess).2).1
      = [.ret none, .ret none] ∧
    (callsAI .bedrock stubSDK 2 (Context.AI .bedrock stubSDK freshProcess).2).2.newClientCalls
      = 1 :=
  have h := AI_failure_not_retried .bedrock stubSDK freshProcess
    (.wrapError "failed to load AWS config: no credentials" (.errorString "no credentials"))
    2 rfl rfl rfl
  ⟨h.1, h.2.2.1, h.2.2.2.1⟩

/-! ## The process-wide slot -/

/-- With the lock free, `SetGlobal` returns, stores its argument and frees the lock. -/
theorem SetGlobal_free {α : Type} (ctx : Option α) (g : Globals α)
    (h : g.globalMu = { writer := false, readers := 0 }) :
    SetGlobal ctx g = some { globalCtx := ctx, globalMu := { writer := false, readers := 0 } } := by
  simp [SetGlobal, RWMutex.Lock, RWMutex.Unlock, h]

/-- With the lock free, `GetGlobal` returns the stored value and leaves the package
variables as they were. -/
theorem GetGlobal_free {α : Type} (g : Globals α)
    (h : g.globalMu = { writer := false, readers := 0 }) :
    GetGlobal g = some (g.globalCtx, g) := by
  obtain ⟨c, mu⟩ := g
  simp only at h
  subst h
  simp [GetGlobal, RWMutex.RLock, RWMutex.RUnlock]

/-- A sequential program never blocks: started with the lock free, every call returns
and the lock is free afterwards. -/
theorem runGlobal_free {α : Type} (calls : List (GlobalCall α)) (g : Globals α)
    (h : g.globalMu = { writer := false, readers := 0 }) :
    ∃ rs g1, runGlobal calls g = some (rs, g1) ∧
      g1.globalMu = { writer := false, readers := 0 } := by
  induction calls generalizing g with
  | nil => exact ⟨[], g, rfl, h⟩
  | cons c rest ih =>
    cases c with
    | set ctx =>
      obtain ⟨rs, g1, h1, h2⟩ := ih { globalCtx := ctx, globalMu := { writer := false, readers := 0 } } rfl
      exact ⟨rs, g1, by simp [runGlobal, SetGlobal_free ctx g h, h1], h2⟩
    | get =>
      obtain ⟨rs, g1, h1, h2⟩ := ih g h
      exact ⟨g.globalCtx :: rs, g1, by simp [runGlobal, GetGlobal_free g h, h1], h2⟩

/-- Running two programs one after the other. -/
theorem runGlobal_append {α : Type} (a b : List (GlobalCall α)) (g g1 g2 : Globals α)
    (rs1 rs2 : List (Option α)) (h1 : runGlobal a g = some (rs1, g1))
    (h2 : runGlobal b g1 = some (rs2, g2)) :
    runGlobal (a ++ b) g = some (rs1 ++ rs2, g2) := by
  induction a generalizing g rs1 with
  | nil =>
    simp only [runGlobal, Option.some.injEq, Prod.mk.injEq] at h1
    obtain ⟨rfl, rfl⟩ := h1
    simpa using h2
  | cons c rest ih =>
    cases c with
    | set ctx =>
      simp only [runGlobal, List.cons_append] at h1 ⊢
      cases hs : SetGlobal ctx g with
      | none => simp [hs] at h1
      | some g3 =>
        simp only [hs] at h1 ⊢
        exact ih g3 rs1 h1
    | get =>
      simp only [runGlobal, List.cons_append] at h1 ⊢
      cases hg : GetGlobal g with
      | none => simp [hg] at h1
      | some v =>
        obtain ⟨r, g3⟩ := v
        simp only [hg] at h1 ⊢
        cases hr : runGlobal rest g3 with
        | none => simp [hr] at h1
        | some v2 =>
          obtain ⟨rs3, g4⟩ := v2
          simp only [hr, Option.some.injEq, Prod.mk.injEq] at h1
          obtain ⟨rfl, rfl⟩ := h1
          simp [ih g3 rs3 hr]

/-- With the lock free, `n` calls of `GetGlobal` in a row all return the stored value
and change nothing. -/
theorem runGlobal_gets {α : Type} (n : Nat) (g : Globals α)
    (h : g.globalMu = { writer := false, readers := 0 }) :
    runGlobal (List.replicate n GlobalCall.get) g = some (List.replicate n g.globalCtx, g) := by
  induction n with
  | zero => rfl
  | succ k ih => simp [List.replicate_succ, runGlobal, GetGlobal_free g h, ih]

/-- C12: in every sequential program, whatever calls came before: every call returns
(none blocks); a `SetGlobal(ctx)` followed by `n + 1` calls of `GetGlobal` with no
`SetGlobal` in between makes each of them return exactly `ctx` (nil included);
`GetGlobal` before any `SetGlobal` returns nil; and a `GetGlobal` leaves the package
variables exactly as they were. -/
theorem GetGlobal_after_SetGlobal {α : Type} (hist : List (GlobalCall α)) (ctx : Option α)
    (n : Nat) :
    (∃ rs g, runGlobal hist Globals.zero = some (rs, g) ∧
      (∃ g1, runGlobal (hist ++ [.set ctx] ++ List.replicate (n + 1) .get) Globals.zero
          = some (rs ++ List.replicate (n + 1) ctx, g1) ∧ g1.globalCtx = ctx) ∧
      runGlobal (hist ++ [.get]) Globals.zero = some (rs ++ [g.globalCtx], g)) ∧
    runGlobal [GlobalCall.get] (Globals.zero : Globals α) = some ([none], Globals.zero) := by
  refine ⟨?_, rfl⟩
  obtain ⟨rs, g, h1, h2⟩ := runGlobal_free hist (Globals.zero : Globals α) rfl
  refine ⟨rs, g, h1, ⟨⟨ctx, ⟨false, 0⟩⟩, ?_, rfl⟩, ?_⟩
  · have hset : runGlobal [GlobalCall.set ctx] g
        = some ([], { globalCtx := ctx, globalMu := { writer := false, readers := 0 } }) := by
      simp [runGlobal, SetGlobal_free ctx g h2]
    have h3 := runGlobal_append hist [.set ctx] _ _ _ _ _ h1 hset
    have h4 := runGlobal_append (hist ++ [.set ctx]) (List.replicate (n + 1) .get) _ _ _ _ _ h3
      (runGlobal_gets (n + 1) _ rfl)
    simpa using h4
  · have hget : runGlobal [GlobalCall.get] g = some ([g.globalCtx], g) := by
      simp [runGlobal, GetGlobal_free g h2]
    exact runGlobal_append hist [.get] _ _ _ _ _ h1 hget

/-- C13 as stated fails: after `SetGlobal(c1)` has published a context, a later
`SetGlobal(c2)` does change what `GetGlobal` returns (contexts at addresses 1 and 2). -/
theorem SetGlobal_not_publish_once :
    runGlobal [.set (some 1), .get, .set (some 2), .get] (Globals.zero : Globals Nat)
      = some ([some 1, some 2], ⟨some 2, ⟨false, 0⟩⟩) := by
  rfl

/-- C13 amended: the slot is last-write-wins. Whatever calls came before, after
`SetGlobal(c1)` and then `SetGlobal(c2)` a `GetGlobal` returns `c2`, the argument of the
most recent `SetGlobal`; every call returns. -/
theorem SetGlobal_last_write_wins {α : Type} (hist : List (GlobalCall α)) (c1 c2 : Option α) :
    ∃ rs g, runGlobal (hist ++ [.set c1, .set c2, .get]) Globals.zero = some (rs ++ [c2], g) ∧
      g.globalCtx = c2 := by
  obtain ⟨rs, g, h1, h2⟩ := runGlobal_free hist (Globals.zero : Globals α) rfl
  have h3 : runGlobal [GlobalCall.set c1, .set c2, .get] g
      = some ([c2], { globalCtx := c2, globalMu := { writer := false, readers := 0 } }) := by
    simp [runGlobal, SetGlobal_free c1 g h2, SetGlobal_free, GetGlobal_free]
  exact ⟨rs, _, runGlobal_append hist _ _ _ _ _ _ h1 h3, rfl⟩

/-! ## Cancellation -/

/-- The error `Chat` returns when its backend call fails: the variant's lead and the
message of the backend error, wrapping the backend error. -/
theorem Chat_of_BackendFails {σ : Type} (c : Client σ) (s : Scope) (p : String) (w : σ)
    (e : GoError) (w1 : σ) (h : c.BackendFails s p w e w1) :
    c.Chat s p w
      = (.ret ("", some (.wrapError (backendLead c.adapter.provider ++ e.Error) e)), w1) := by
  obtain ⟨cfg, ad⟩ := c
  cases ad with
  | bedrock f =>
    simp only [Client.BackendFails] at h
    have := Errorf_literal_then_w "bedrock converse failed: " (by decide) e
    simp [Client.Chat, h, Adapter.provider, backendLead] at this ⊢
    exact this
  | openai f =>
    simp only [Client.BackendFails] at h
    have := Errorf_literal_then_w "openai chat failed: " (by decide) e
    simp [Client.Chat, h, Adapter.provider, backendLead] at this ⊢
    exact this
  | anthropic f =>
    simp only [Client.BackendFails] at h
    have := Errorf_literal_then_w "anthropic chat failed: " (by decide) e
    simp [Client.Chat, h, Adapter.provider, backendLead] at this ⊢
    exact this
  | ollama g =>
    simp only [Client.BackendFails] at h
    obtain ⟨fragments, h⟩ := h
    have := Errorf_literal_then_w "ollama generate failed: " (by decide) e
    simp [Client.Chat, h, ollama_stream_collect, Adapter.provider, backendLead] at this ⊢
    exact this

/-- C14 as stated fails: on a cancelled scope whose backend call fails with
`context.Canceled`, `Chat` returns the backend-call error "openai chat failed: ..."
built exactly like the one for a timeout; the returned error is not the cancellation
error, it only wraps it. -/
theorem Chat_cancelled_is_backend_error :
    stubCancelled.BackendFails ⟨true⟩ "hi" () contextCanceled () ∧
    stubCancelled.Chat ⟨true⟩ "hi" ()
      = (.ret ("", some (.wrapError ("openai chat failed: " ++ contextCanceled.Error)
          contextCanceled)), ()) ∧
    stubTimeout.Chat ⟨false⟩ "hi" ()
      = (.ret ("", some (.wrapError
          ("openai chat failed: " ++ (GoError.foreign "net.OpError" "i/o timeout").Error)
          (.foreign "net.OpError" "i/o timeout"))), ()) ∧
    GoError.wrapError ("openai chat failed: " ++ contextCanceled.Error) contextCanceled
      ≠ contextCanceled := by
  refine ⟨rfl, ?_, ?_, by decide⟩
  · exact Chat_of_BackendFails stubCancelled ⟨true⟩ "hi" () contextCanceled () rfl
  · exact Chat_of_BackendFails stubTimeout ⟨false⟩ "hi" () _ () rfl

/-- C14 amended: for every adapter variant and prompt, when the backend call fails with
an error `e`, `Chat` returns the variant's ordinary backend-call error (same lead as for
any failure) wrapping `e` unchanged; `errors.Is(err, context.Canceled)` holds for the
returned error exactly when it holds for `e`, so a cancellation is recognisable through
the wrapped cause and only there. -/
theorem Chat_cancellation_wrapped {σ : Type} (c : Client σ) (s : Scope) (p : String)
    (w : σ) (e : GoError) (w1 : σ) (h : c.BackendFails s p w e w1) :
    ∃ err : GoError,
      c.Chat s p w = (.ret ("", some err), w1) ∧
      err.Error = backendLead c.adapter.provider ++ e.Error ∧
      err.Unwrap = some e ∧
      errorsIs err contextCanceled = errorsIs e contextCanceled := by
  refine ⟨_, Chat_of_BackendFails c s p w e w1 h, rfl, rfl, ?_⟩
  simp [errorsIs, contextCanceled]

/-- C14 amended, at stubs: the error for a cancelled scope matches `context.Canceled`
through its chain, the error for a timeout does not. -/
theorem Chat_cancellation_wrapped_witness :
    (∃ err : GoError,
      stubCancelled.Chat ⟨true⟩ "hi" () = (.ret ("", some err), ()) ∧
      errorsIs err contextCanceled = true) ∧
    (∃ err : GoError,
      stubTimeout.Chat ⟨false⟩ "hi" () = (.ret ("", some err), ()) ∧
      errorsIs err contextCanceled = false) :=
  ⟨let ⟨err, h1, _, _, h4⟩ :=
     Chat_cancellation_wrapped stubCancelled ⟨true⟩ "hi" () contextCanceled () rfl
   ⟨err, h1, h4.trans (by decide)⟩,
   let ⟨err, h1, _, _, h4⟩ :=
     Chat_cancellation_wrapped stubTimeout ⟨false⟩ "hi" ()
       (.foreign "net.OpError" "i/o timeout") () rfl
   ⟨err, h1, h4.trans (by decide)⟩⟩

/-! ## The prompts of `Analyze` and `Summarize` -/

/-- C17: for every text `t`, the prompt `Analyze` hands to `Chat` is the fixed non-empty
instruction "Analyze the following text and provide insights:\n\n" followed by `t`, the
prompt `Summarize` hands to `Chat` is the fixed non-empty instruction "Summarize the
following text concisely:\n\n" followed by `t`; `t` is a suffix of both, the two
instructions differ, and the two prompts differ. -/
theorem Analyze_Summarize_prompts (t : String) :
    (∀ (σ : Type) (c : Client σ) (s : Scope) (w : σ),
      c.Analyze s t w
        = c.Chat s ("Analyze the following text and provide insights:\n\n" ++ t) w ∧
      c.Summarize s t w
        = c.Chat s ("Summarize the following text concisely:\n\n" ++ t) w) ∧
    List.IsSuffix t.data ("Analyze the following text and provide insights:\n\n" ++ t).data ∧
    List.IsSuffix t.data ("Summarize the following text concisely:\n\n" ++ t).data ∧
    ("Analyze the following text and provide insights:\n\n" : String) ≠ "" ∧
    ("Summarize the following text concisely:\n\n" : String) ≠ "" ∧
    ("Analyze the following text and provide insights:\n\n" : String)
      ≠ "Summarize the following text concisely:\n\n" ∧
    "Analyze the following text and provide insights:\n\n" ++ t
      ≠ "Summarize the following text concisely:\n\n" ++ t := by
  refine ⟨fun σ c s w => ⟨Analyze_prompt c s t w, Summarize_prompt c s t w⟩,
    ⟨_, rfl⟩, ⟨_, rfl⟩, by decide, by decide, by decide, ?_⟩
  intro h
  have h2 := congrArg String.data h
  simp only [String.data_append, List.append_left_inj] at h2
  exact absurd h2 (by decide)

/-! ## Backend calls made by `Chat` -/

/-- On the logged backend `Chat` returns what it returns on the original one, leaves
the original backend state as the original call does, and the log has grown by exactly
the one request of the variant. -/
theorem Chat_recording {σ : Type} (c : Client σ) (s : Scope) (p : String) (w : σ)
    (log : List NativeRequest) :
    c.recording.Chat s p (w, log) =
      ((c.Chat s p w).1, ((c.Chat s p w).2,
        log ++ [match c.adapter with
          | .bedrock _ => .converse (c.converseInput p)
          | .openai _ => .chatCompletion (c.chatCompletionRequest p)
          | .anthropic _ => .messagesNew (c.messageNewParams p)
          | .ollama _ => .generate (c.generateRequest p)])) := by
  obtain ⟨cfg, ad⟩ := c
  cases ad with
  | bedrock f =>
    simp only [Client.recording, Adapter.recording, Client.Chat, Client.converseInput]
    rcases f s _ w with ⟨r | out, w1⟩
    · simp
    · rcases out with ⟨m | k | _⟩
      · rcases m with ⟨role, _ | ⟨b, bs⟩⟩
        · simp
        · cases b <;> simp
      · simp
      · simp
  | openai f =>
    simp only [Client.recording, Adapter.recording, Client.Chat, Client.chatCompletionRequest]
    rcases f s _ w with ⟨r | resp, w1⟩
    · simp
    · rcases resp with ⟨_ | ⟨ch, chs⟩⟩ <;> simp
  | anthropic f =>
    simp only [Client.recording, Adapter.recording, Client.Chat, Client.messageNewParams]
    rcases f s _ w with ⟨r | resp, w1⟩
    · simp
    · rcases resp with ⟨_ | ⟨b, bs⟩⟩
      · simp
      · cases b <;> simp
  | ollama g =>
    simp only [Client.recording, Adapter.recording, Client.Chat, Client.generateRequest,
      ollama_stream_collect]
    rcases g s _ w with ⟨⟨fragments, _ | e⟩, w1⟩ <;> simp

/-- C18: for every adapter variant, scope and input, one invocation of `Chat` makes
exactly one call on the backend (the call log grows by one), whether the call succeeds,
fails or yields an empty response; so do `Analyze`, `Summarize` and `Generate`. -/
theorem Chat_single_backend_call {σ : Type} (c : Client σ) (s : Scope) (p : String) (w : σ)
    (log : List NativeRequest) (o : Option (List (String × AnyValue))) :
    (c.recording.Chat s p (w, log)).2.2.length = log.length + 1 ∧
    (c.recording.Analyze s p (w, log)).2.2.length = log.length + 1 ∧
    (c.recording.Summarize s p (w, log)).2.2.length = log.length + 1 ∧
    (c.recording.Generate s p o (w, log)).2.2.length = log.length + 1 := by
  refine ⟨?_, ?_, ?_, ?_⟩
  · rw [Chat_recording]; simp
  · rw [Analyze_prompt, Chat_recording]; simp
  · rw [Summarize_prompt, Chat_recording]; simp
  · rw [Client.Generate, Chat_recording]; simp

/-- C19: for every configuration and prompt `p`, the one request each adapter hands to
its backend carries the model `cfg.Model` and `p` unchanged as its only input: the
bedrock, openai and anthropic variants send exactly one message, of the user role, whose
single text content is `p`; the local-server variant sends `p` as the prompt field; the
anthropic variant also sets the maximum output tokens to 1024. -/
theorem Chat_native_request {σ : Type} (cfg : AIConfig) (s : Scope) (p : String) (w : σ)
    (log : List NativeRequest) :
    (∀ f, ((Client.recording ⟨cfg, .bedrock f⟩).Chat s p (w, log)).2.2 =
      log ++ [.converse { ModelId := some cfg.Model,
                          Messages := [{ Role := .user, Content := [.text p] }] }]) ∧
    (∀ f, ((Client.recording ⟨cfg, .openai f⟩).Chat s p (w, log)).2.2 =
      log ++ [.chatCompletion { Model := cfg.Model,
                                Messages := [{ Role := "user", Content := p }] }]) ∧
    (∀ f, ((Client.recording ⟨cfg, .anthropic f⟩).Chat s p (w, log)).2.2 =
      log ++ [.messagesNew { Model := cfg.Model,
                             Messages := [{ Role := "user", Content := [p] }],
                             MaxTokens := 1024 }]) ∧
    (∀ g, ((Client.recording ⟨cfg, .ollama g⟩).Chat s p (w, log)).2.2 =
      log ++ [.generate { Model := cfg.Model, Prompt := p }]) := by
  refine ⟨fun f => ?_, fun f => ?_, fun f => ?_, fun g => ?_⟩ <;>
    rw [Chat_recording] <;> rfl

/-! ## The command handlers -/

/-- C15: for each of the chat, analyze, summarize and generate handlers, in both
CLI-framework variants and for every argument list with a first argument: when the
published context yields a client and the facade operation returns `(text, err)`, the
handler returns `err` itself (nil when `err` is nil); if `err` is non-nil the terminal is
untouched (no call on the output collaborator), and if `err` is nil the only change is
one call `Output.Info(text)`. -/
theorem handler_forwards_facade_result {σ : Type} (op : FacadeOp) (p : Provider)
    (sdk : SDK σ) (help : Option GoError) (scope : Scope) (arg : String)
    (rest : List String) (w : World σ) (ctx : Context) (pr : Process σ) (a : Nat)
    (client : Client σ) (text : String) (err : Option GoError) (b1 : σ)
    (hmu : w.globals.globalMu = { writer := false, readers := 0 })
    (hctx : w.globals.globalCtx = some ctx)
    (hAI : Context.AI p sdk { ctx := ctx, heap := w.heap, newClientCalls := w.newClientCalls }
      = (.ret (some a), pr))
    (hcl : pr.heap[a]? = some client)
    (hop : op.call client scope arg w.backend = (.ret (text, err), b1)) :
    ∃ w2 : World σ,
      cobra.RunE op p sdk scope (arg :: rest) w = some (.ret err, w2) ∧
      urfave.Action op p sdk help scope (arg :: rest) w = some (.ret err, w2) ∧
      w2.backend = b1 ∧
      w2.term = (match err with
        | some _ => w.term
        | none => { w.term with calls := w.term.calls ++ [.Info text] }) := by
  have hg := GetGlobal_free w.globals hmu
  cases err with
  | some e =>
    refine ⟨{ w.store pr with backend := b1 }, ?_, ?_, rfl, rfl⟩
    · simp [cobra.RunE, hg, hctx, runFacade, hAI, hcl, hop]
    · simp [urfave.Action, hg, hctx, runFacade, hAI, hcl, hop]
  | none =>
    refine ⟨{ w.store pr with backend := b1, term := pr.ctx.Output.Info text w.term },
      ?_, ?_, rfl, rfl⟩
    · simp [cobra.RunE, hg, hctx, runFacade, hAI, hcl, hop]
    · simp [urfave.Action, hg, hctx, runFacade, hAI, hcl, hop]

/-- C15, at a stub: the chat handler on "hi" renders "hello world" with one `Info` call
and returns nil; on "bye" it returns the facade's error and renders nothing. -/
theorem handler_forwards_facade_result_witness :
    (∃ w2 : World Unit,
      cobra.RunE .chat .openai helloSDK ⟨false⟩ ["hi"] freshWorld = some (.ret none, w2) ∧
      w2.term.calls = [.Info "hello world"]) ∧
    (∃ w2 : World Unit,
      urfave.Action .chat .openai helloSDK none ⟨false⟩ ["bye"] freshWorld
        = some (.ret (some (.errorString "no response from model")), w2) ∧
      w2.term.calls = []) :=
  ⟨let ⟨w2, h1, _, _, h4⟩ :=
     handler_forwards_facade_result .chat .openai helloSDK none ⟨false⟩ "hi" [] freshWorld
       (NewContext { AI := cfgGpt4 })
       (Context.AI .openai helloSDK
         { ctx := NewContext { AI := cfgGpt4 }, heap := [], newClientCalls := 0 }).2
       0 { cfg := cfgGpt4, adapter := .openai (helloSDK.openaiNewClient cfgGpt4.APIKey) }
       "hello world" none () rfl rfl rfl rfl rfl
   ⟨w2, h1, by rw [h4]; rfl⟩,
   let ⟨w2, _, h2, _, h4⟩ :=
     handler_forwards_facade_result .chat .openai helloSDK none ⟨false⟩ "bye" [] freshWorld
       (NewContext { AI := cfgGpt4 })
       (Context.AI .openai helloSDK
         { ctx := NewContext { AI := cfgGpt4 }, heap := [], newClientCalls := 0 }).2
       0 { cfg := cfgGpt4, adapter := .openai (helloSDK.openaiNewClient cfgGpt4.APIKey) }
       "" (some (.errorString "no response from model")) () rfl rfl rfl rfl rfl
   ⟨w2, h2, by rw [h4]; rfl⟩⟩

/-! ## The disabled build of the command layer -/

/-- C16, the code at the failing input: in the build with `aiProvider` "none", for
either CLI framework and with no integration selected, the root command has no command
named "ai" (while every enabled build registers one); the placeholder action of the
urfave rendering, were it reachable, returns the error "AI features not enabled in this
build" for every argument list, and the cobra rendering of the placeholder declares no
action at all. -/
theorem disabled_ai_command_not_registered (fw : Framework) (features : List String) :
    "ai" ∉ rootCommands fw { aiProvider := none, aiFeatures := features } [] ∧
    (∀ p : Provider,
      "ai" ∈ rootCommands fw { aiProvider := some p, aiFeatures := features } []) ∧
    (∃ action, disabled.Cmd .urfave = some action ∧
      ∀ args : List String,
        action args = some (.errorString "AI features not enabled in this build")) ∧
    disabled.Cmd .cobra = none := by
  refine ⟨?_, fun p => ?_, ⟨_, rfl, fun args => congrArg some (by decide)⟩, rfl⟩
  · cases fw <;> simp [rootCommands, registerCommands]
  · cases fw <;> simp [rootCommands, registerCommands]

/-! ## Confirmation -/

/-- C20: for every context, message and default value, in both output variants: with
`DryRun` set `Context.Confirm` returns false and leaves the terminal untouched (the
output collaborator is not entered); with `DryRun` unset it returns exactly what
`Output.Confirm(message, defaultValue)` returns, and that call does enter the
collaborator. -/
theorem Confirm_respects_dry_run (charm : Bool) (c : Context) (message : String)
    (defaultValue : Bool) (t : Terminal) :
    (c.DryRun = true → Context.Confirm charm c message defaultValue t = (false, t)) ∧
    (c.DryRun = false →
      Context.Confirm charm c message defaultValue t
        = c.Output.Confirm charm message defaultValue t) ∧
    (c.Output.Confirm charm message defaultValue t).2.calls
      = t.calls ++ [.Confirm message defaultValue] := by
  refine ⟨fun h => by simp [Context.Confirm, h], fun h => by simp [Context.Confirm, h], ?_⟩
  cases charm
  · simp only [Formatter.Confirm, Scanln]
    cases t.stdin with
    | nil => simp
    | cons line rest =>
      simp only [Bool.false_eq_true, if_false]
      split <;> rfl
  · simp only [Formatter.Confirm]
    cases t.form message <;> rfl

/-- C20, at a stub: with `DryRun` set and default true the answer is false and nothing
is asked; with `DryRun` unset the pending input line "yes" is read and the answer is
true. -/
theorem Confirm_respects_dry_run_witness :
    Context.Confirm false { NewContext { AI := cfgGpt4 } with DryRun := true } "Proceed?"
      true stubTerminal = (false, stubTerminal) ∧
    (Context.Confirm false (NewContext { AI := cfgGpt4 }) "Proceed?" false stubTerminal).1
      = true :=
  ⟨(Confirm_respects_dry_run false { NewContext { AI := cfgGpt4 } with DryRun := true }
      "Proceed?" true stubTerminal).1 rfl,
   ((Confirm_respects_dry_run false (NewContext { AI := cfgGpt4 }) "Proceed?" false
      stubTerminal).2.1 rfl).symm ▸ by decide⟩

end GoCli
